import Mathlib

/-!
Verification of the VIDEO_IMG_AI_CREATOR front end: a shallow embedding of
the video job poller ( src/unnamed/part_001, generateVideoWithPrompt), the
error classification of the poller and the credential flag of the video view
( src/components/Footer.tsx, VideoGenerator), the image editor state and its
localStorage write through ( src/components/ImageEditor.tsx), the format
conversion canvas routine (convertImageFormat), and the object URL lifecycle
of the video view. External collaborators (the AI gateway, fetch,
JSON.parse, the canvas codec) are passed in as explicit function arguments;
the control flow around them is translated statement by statement from the
source.
-/

namespace VideoImgAI

/-! ## JS string containment

Model of JS String.prototype.includes used at part_001 line 143 and
Footer.tsx line 157: the pattern occurs as a contiguous substring. -/

/-- The first list of characters is an initial segment of the second. -/
def charsMatchAt : List Char → List Char → Bool
  | [], _ => true
  | _ :: _, [] => false
  | a :: as, b :: bs => a == b && charsMatchAt as bs

/-- The pattern occurs contiguously somewhere in the second list. -/
def charsContain (pat : List Char) : List Char → Bool
  | [] => charsMatchAt pat []
  | c :: rest => charsMatchAt pat (c :: rest) || charsContain pat rest

/-- JS s.includes(pat). -/
def strIncludes (s pat : String) : Bool :=
  charsContain pat.toList s.toList

/-! ## Video job poller (part_001, generateVideoWithPrompt)

The gateway operation handle. operation.done is the completion flag;
operation.response?.generatedVideos?.[0]?.video?.uri is the optional chain
read at part_001 line 115, modelled with Option at each step. -/

structure VideoRef where
  uri : Option String
deriving DecidableEq

structure GeneratedVideo where
  video : Option VideoRef
deriving DecidableEq

structure OperationResponse where
  generatedVideos : List GeneratedVideo
deriving DecidableEq

structure Operation where
  done : Bool
  response : Option OperationResponse
deriving DecidableEq

/-- The optional chain operation.response?.generatedVideos?.[0]?.video?.uri
(part_001 line 115). -/
def downloadLink (op : Operation) : Option String :=
  (((op.response.map fun r => r.generatedVideos).bind fun gs => gs.head?).bind
    fun g => g.video).bind fun v => v.uri

/-- The while loop at part_001 lines 109 to 113: while the handle is not
done, suspend for the fixed interval, then replace the handle with the
refreshed one returned by the status query. polls is the sequence of
refreshed handles the gateway returns, consumed one per iteration; the
result counts the suspensions performed alongside the final handle. none
means the trace of refreshed handles ran out while still not done (the real
loop would keep polling). -/
def pollToDone : Operation → List Operation → Option (Nat × Operation)
  | op, polls =>
    if op.done then some (0, op)
    else
      match polls with
      | [] => none
      | next :: rest =>
        match pollToDone next rest with
        | none => none
        | some (n, fin) => some (n + 1, fin)

/-- Result of the fetch at part_001 line 121. blobId stands for the
downloaded bytes, abstractly. -/
structure FetchResponse where
  ok : Bool
  status : Nat
  blobId : Nat
deriving DecidableEq

/-- The two failure exits of the try block after the loop: the missing
download link throw at line 117 and the download failure throw at line 123.
-/
inductive VideoError where
  | resultMissing
  | downloadFailed (status : Nat)
deriving DecidableEq

/-- Observable outcome of one run of generateVideoWithPrompt: how many
fixed interval suspensions the loop performed, which URLs were passed to
fetch, and the result (the object URL on success). -/
structure VideoRunResult where
  sleeps : Nat
  fetched : List String
  outcome : Except VideoError String

/-- part_001 lines 95 to 126, after the initial generateVideos call
returned initialOp: the poll loop, the download link extraction, the fetch
with the key appended, and URL.createObjectURL on the blob. fetch and
createObjectURL are the external collaborators; none means the poll trace
ran out before done. -/
def generateVideoWithPrompt (initialOp : Operation) (polls : List Operation)
    (fetch : String → FetchResponse) (createObjectURL : Nat → String)
    (apiKey : String) : Option VideoRunResult :=
  match pollToDone initialOp polls with
  | none => none
  | some (n, finalOp) =>
    match downloadLink finalOp with
    | none => some ⟨n, [], Except.error VideoError.resultMissing⟩
    | some link =>
      let url := link ++ "&key=" ++ apiKey
      let resp := fetch url
      if resp.ok then
        some ⟨n, [url], Except.ok (createObjectURL resp.blobId)⟩
      else
        some ⟨n, [url], Except.error (VideoError.downloadFailed resp.status)⟩

/-! ## Provider error classification (part_001 lines 128 to 151) and the
credential flag of the video view (Footer.tsx, VideoGenerator). -/

/-- The credential error signature matched at part_001 line 143. -/
def entityNotFoundSig : String := "Requested entity was not found."

/-- The dedicated credential error message thrown at part_001 line 144. -/
def invalidCredentialMsg : String :=
  "API key not found or invalid. Please select a valid API key and try again."

/-- The catch block of generateVideoWithPrompt (part_001 lines 128 to 151)
for an error that is an Error instance with message errMsg: errorContent is
that message; when it contains the signature, the dedicated credential
message is thrown, otherwise the generic wrapped message. -/
def classifyVideoGenError (errMsg : String) : String :=
  if strIncludes errMsg entityNotFoundSig then invalidCredentialMsg
  else "Failed to generate video: " ++ errMsg

/-- The catch block of VideoGenerator.handleSubmit (Footer.tsx lines 154 to
159): given the displayed error message, the credential selected flag is
set to false exactly when that message contains "API key not found",
otherwise it keeps its value. -/
def handleVideoErrorFlag (errorMessage : String) (isKeySelected : Bool) : Bool :=
  if strIncludes errorMessage "API key not found" then false else isKeySelected

/-! ## Image editor session state and localStorage (ImageEditor.tsx). -/

/-- The in memory image record (types.ts ImageFile): the optional File
handle is abstracted to a numeric id. JSON.parse of the persisted original
yields one with no file field. -/
structure ImageFile where
  file : Option Nat
  base64 : String
  mimeType : String
  dataURL : String
deriving DecidableEq

/-- The three localStorage keys read at ImageEditor lines 54 to 56, each
holding a raw string or absent. -/
structure Store where
  originalImage : Option String
  editedImage : Option String
  editHistory : Option String
deriving DecidableEq

/-- localStorage.clear() (ImageEditor line 70). -/
def Store.empty : Store := ⟨none, none, none⟩

/-- The in memory session state of ImageEditor (lines 44, 45, 50). -/
structure SessionState where
  originalImage : Option ImageFile
  editedImage : Option String
  history : List String
deriving DecidableEq

/-- The initial state of the three useState hooks. -/
def emptySession : SessionState := ⟨none, none, []⟩

/-- ImageEditor lines 58 to 60: when the originalImage key is present,
JSON.parse it and apply setOriginalImage. parseImage models JSON.parse
(none = the parse throws); an error carries the state updates already
applied. -/
def readOriginal (parseImage : String → Option ImageFile) (st : Store)
    (s : SessionState) : Except SessionState SessionState :=
  match st.originalImage with
  | none => Except.ok s
  | some raw =>
    match parseImage raw with
    | none => Except.error s
    | some img => Except.ok { s with originalImage := some img }

/-- ImageEditor lines 61 to 63: the editedImage key is applied raw, with no
parse, so this statement never throws. -/
def readEdited (st : Store) (s : SessionState) :
    Except SessionState SessionState :=
  match st.editedImage with
  | none => Except.ok s
  | some e => Except.ok { s with editedImage := some e }

/-- ImageEditor lines 64 to 66: when the editHistory key is present,
JSON.parse it and apply setHistory. parseHistory models JSON.parse of the
array (none = the parse throws). -/
def readHistory (parseHistory : String → Option (List String)) (st : Store)
    (s : SessionState) : Except SessionState SessionState :=
  match st.editHistory with
  | none => Except.ok s
  | some raw =>
    match parseHistory raw with
    | none => Except.error s
    | some h => Except.ok { s with history := h }

/-- The load effect of ImageEditor (lines 52 to 72): the try block applies
the three keys in order; a JSON.parse exception aborts the remaining
statements and the catch block logs and clears the entire store, while the
state updates applied before the throw remain in force. The result is the
in memory state, the store after the effect, and whether an exception was
caught (the effect itself never rethrows: it is a total function). -/
def loadSession (parseImage : String → Option ImageFile)
    (parseHistory : String → Option (List String)) (st : Store) :
    SessionState × Store × Bool :=
  match (readOriginal parseImage st emptySession).bind
      (fun s => (readEdited st s).bind (readHistory parseHistory st)) with
  | Except.ok s => (s, st, false)
  | Except.error s => (s, Store.empty, true)

/-! ## Image editor mutations and their localStorage writes.

The mutation handlers write JSON.stringify forms; serialization is treated
as transparent, so the persisted values are modelled at the level of their
content. -/

/-- The object JSON.stringify persists for the original image (ImageEditor
lines 91 to 95): base64, mimeType and dataURL, without the File handle. -/
structure StoredImage where
  base64 : String
  mimeType : String
  dataURL : String
deriving DecidableEq

/-- The projection persisted at ImageEditor line 91. -/
def ImageFile.toStored (f : ImageFile) : StoredImage :=
  ⟨f.base64, f.mimeType, f.dataURL⟩

/-- The three localStorage keys as the mutation handlers write them:
originalImage (a serialized StoredImage), editedImage (a raw data URL),
editHistory (a serialized list of data URLs); none = key absent. -/
structure PersistStore where
  originalImage : Option StoredImage
  editedImage : Option String
  editHistory : Option (List String)
deriving DecidableEq

/-- handleImageChange, body of reader.onloadend (ImageEditor lines 78 to
98): set the new original image, clear the edited image and the history,
write the originalImage key and remove the editedImage and editHistory
keys, all in the same step. -/
def handleImageChange (newImage : ImageFile) :
    SessionState × PersistStore → SessionState × PersistStore
  | (_, _) =>
    (⟨some newImage, none, []⟩, ⟨some newImage.toStored, none, none⟩)

/-- handleRemoveImage (ImageEditor lines 103 to 111): clear the whole in
memory state and remove all three keys. -/
def handleRemoveImage :
    SessionState × PersistStore → SessionState × PersistStore
  | (_, _) => (emptySession, ⟨none, none, none⟩)

/-- Record of one successful handleSubmit run: the arguments passed to the
gateway edit call, whether the conversion step ran, the final data URL, and
the resulting state and store. -/
structure SubmitResult where
  gatewayArgs : String × String × String
  converted : Bool
  finalImageDataUrl : String
  state : SessionState
  store : PersistStore
deriving DecidableEq

/-- handleSubmit (ImageEditor lines 113 to 145) when the gateway call
succeeds: none when the original image or the prompt is missing (the early
return at line 114). gateway models editImageWithPrompt, called with the
original image bytes and mime type and the prompt; convert models
convertImageFormat, run only when the returned mime type differs from the
selected output format, else the returned payload is wrapped as a data URL
unchanged; then the edited image is set, the history appended, and the
editedImage and editHistory keys written in the same step. -/
def handleSubmit (gateway : String → String → String → String × String)
    (convert : String → String → String → String)
    (prompt : String) (outputFormat : String) :
    SessionState × PersistStore → Option SubmitResult
  | (s, st) =>
    match s.originalImage with
    | none => none
    | some orig =>
      if prompt = "" then none
      else
        let res := gateway orig.base64 orig.mimeType prompt
        let newImageBase64 := res.1
        let newImageMimeType := res.2
        let finalImageDataUrl :=
          if newImageMimeType ≠ outputFormat then
            convert newImageBase64 newImageMimeType outputFormat
          else "data:" ++ newImageMimeType ++ ";base64," ++ newImageBase64
        let newHistory := s.history ++ [finalImageDataUrl]
        some ⟨(orig.base64, orig.mimeType, prompt),
          decide (newImageMimeType ≠ outputFormat),
          finalImageDataUrl,
          { s with editedImage := some finalImageDataUrl,
                   history := newHistory },
          { st with editedImage := some finalImageDataUrl,
                    editHistory := some newHistory }⟩

/-- handleRevertToHistory (ImageEditor lines 147 to 150): set the edited
image to the chosen history entry and write the editedImage key; nothing
else changes. -/
def handleRevertToHistory (imageDataUrl : String) :
    SessionState × PersistStore → SessionState × PersistStore
  | (s, st) =>
    ({ s with editedImage := some imageDataUrl },
     { st with editedImage := some imageDataUrl })

/-- handleClearHistory (ImageEditor lines 152 to 155): empty the history
and remove the editHistory key. -/
def handleClearHistory :
    SessionState × PersistStore → SessionState × PersistStore
  | (s, st) => ({ s with history := [] }, { st with editHistory := none })

/-- The durable store mirrors the in memory state: each key holds exactly
the persisted form of the corresponding field (an absent editHistory key
mirrors an empty history, as clearing removes the key). -/
def Mirrors (s : SessionState) (st : PersistStore) : Prop :=
  st.originalImage = s.originalImage.map ImageFile.toStored ∧
  st.editedImage = s.editedImage ∧
  (st.editHistory).getD [] = s.history

/-! ## Format conversion canvas routine (convertImageFormat, ImageEditor
lines 11 to 41). The decoded source image and the canvas are rasters of
RGBA pixels; the encoder behind toDataURL stays external, so the theorems
speak about the raster handed to it and the arguments it receives. -/

/-- An RGBA pixel, channels on the 0..255 scale. -/
structure Pixel where
  r : Nat
  g : Nat
  b : Nat
  a : Nat
deriving DecidableEq

/-- The fill color set at ImageEditor line 28 (#FFFFFF, fully opaque). -/
def opaqueWhite : Pixel := ⟨255, 255, 255, 255⟩

/-- A canvas raster: the pixel at each coordinate. -/
def Raster : Type := Nat → Nat → Pixel

/-- A newly created canvas is fully transparent black. -/
def freshCanvas : Raster := fun _ _ => ⟨0, 0, 0, 0⟩

/-- Result alpha of source over compositing on the 0..255 scale. -/
def overAlpha (srcA dstA : Nat) : Nat :=
  srcA + dstA * (255 - srcA) / 255

/-- Source over compositing of one pixel, the default operation of the 2d
context: straight alpha, integer arithmetic on the 0..255 scale. -/
def overPixel (src dst : Pixel) : Pixel :=
  let outA := overAlpha src.a dst.a
  let blend := fun (cs cd : Nat) =>
    if outA = 0 then 0
    else (cs * src.a + cd * dst.a * (255 - src.a) / 255) / outA
  ⟨blend src.r dst.r, blend src.g dst.g, blend src.b dst.b, outA⟩

/-- The context operations of the img.onload handler. The fillRect at line
29 covers the whole canvas (sized to the image at lines 20 to 21), and the
drawImage at line 31 draws the decoded source at the origin. -/
inductive CanvasOp where
  | fillRect (color : Pixel)
  | drawImage
deriving DecidableEq

/-- The operations convertImageFormat performs, in order (lines 26 to 31):
for an image/jpeg target, first fill the canvas with opaque white, then
draw the decoded source image; for any other target, only draw. -/
def convertOps (toMimeType : String) : List CanvasOp :=
  (if toMimeType = "image/jpeg" then [CanvasOp.fillRect opaqueWhite] else [])
    ++ [CanvasOp.drawImage]

/-- The arguments convertImageFormat passes to canvas.toDataURL at line 33:
the target mime type and the hardcoded quality 0.9, as a rational. -/
def toDataURLArgs (toMimeType : String) : String × ℚ := (toMimeType, 9 / 10)

/-- Effect of one context operation on the canvas, src being the decoded
source image. -/
def applyOp (src : Raster) : CanvasOp → Raster → Raster
  | CanvasOp.fillRect c, _ => fun _ _ => c
  | CanvasOp.drawImage, dst => fun x y => overPixel (src x y) (dst x y)

def runOps (src : Raster) (ops : List CanvasOp) (init : Raster) : Raster :=
  ops.foldl (fun dst op => applyOp src op dst) init

/-- The raster convertImageFormat hands to the encoder: its context
operations run on a fresh canvas with the decoded source image. -/
def convertRaster (src : Raster) (toMimeType : String) : Raster :=
  runOps src (convertOps toMimeType) freshCanvas

/-! ## Object URL lifecycle of the video view (Footer.tsx,
VideoGenerator). -/

/-- The video view as it concerns object URLs: the handles currently
materialized and not yet revoked, and the videoUrl state. -/
structure UrlState where
  live : List String
  videoUrl : Option String
deriving DecidableEq

/-- URL.revokeObjectURL: releases the handle; revoking one that is not
live is a no op. -/
def revokeURL (u : String) (live : List String) : List String :=
  live.erase u

/-- The start of handleSubmit (Footer.tsx lines 141 to 144): revoke the
previous videoUrl if any, then set videoUrl to null; the cleanup of the
videoUrl effect (lines 83 to 90) then also revokes the previous value, a
second, idle revocation of the same handle. -/
def submitReleasePrevious (st : UrlState) : UrlState :=
  let live1 := match st.videoUrl with
    | some u => revokeURL u st.live
    | none => st.live
  let live2 := match st.videoUrl with
    | some u => revokeURL u live1
    | none => live1
  ⟨live2, none⟩

/-- A successful handleSubmit run (lines 139 to 153): release the previous
handle, then materialize the fresh object URL that generateVideoWithPrompt
returns and store it in videoUrl. -/
def submitSuccess (fresh : String) (st : UrlState) : UrlState :=
  let st1 := submitReleasePrevious st
  ⟨st1.live ++ [fresh], some fresh⟩

/-- A failed handleSubmit run: the previous handle was already released at
the start and videoUrl stays null. -/
def submitFailure (st : UrlState) : UrlState :=
  submitReleasePrevious st

/-- Teardown of the view: the effect cleanup (lines 83 to 90) revokes the
current videoUrl if any. -/
def teardown (st : UrlState) : UrlState :=
  match st.videoUrl with
  | some u => ⟨revokeURL u st.live, none⟩
  | none => st

/-- The live handles are exactly the current videoUrl: never two at once,
none left behind. -/
def UrlInvariant (st : UrlState) : Prop :=
  st.live = st.videoUrl.toList

end VideoImgAI

namespace VideoImgAI

/-- C1: a status sequence [not done, not done, done with result] makes the
poller suspend exactly twice (once before each re issued status query) and
resolve with the asset fetched from the third status response. -/
theorem poller_two_suspensions (s1 s2 s3 : Operation) (uri : String)
    (h1 : s1.done = false) (h2 : s2.done = false) (h3 : s3.done = true)
    (hres : downloadLink s3 = some uri)
    (fetch : String → FetchResponse) (createObjectURL : Nat → String)
    (apiKey : String)
    (hok : (fetch (uri ++ "&key=" ++ apiKey)).ok = true) :
    generateVideoWithPrompt s1 [s2, s3] fetch createObjectURL apiKey =
      some ⟨2, [uri ++ "&key=" ++ apiKey],
        Except.ok (createObjectURL (fetch (uri ++ "&key=" ++ apiKey)).blobId)⟩ := by
  unfold generateVideoWithPrompt
  rw [show pollToDone s1 [s2, s3] = some (2, s3) by
    rw [pollToDone, pollToDone, pollToDone]
    simp [h1, h2, h3]]
  dsimp only
  rw [hres]
  simp [hok]

/-- Concrete instance of poller_two_suspensions. -/
theorem poller_two_suspensions_witness :
    generateVideoWithPrompt ⟨false, none⟩ [⟨false, none⟩,
        ⟨true, some ⟨[⟨some ⟨some "u"⟩⟩]⟩⟩]
      (fun _ => ⟨true, 200, 7⟩) (fun n => "blob:" ++ toString n) "k" =
      some ⟨2, ["u&key=k"], Except.ok "blob:7"⟩ :=
  poller_two_suspensions ⟨false, none⟩ ⟨false, none⟩
    ⟨true, some ⟨[⟨some ⟨some "u"⟩⟩]⟩⟩ "u" rfl rfl rfl rfl
    (fun _ => ⟨true, 200, 7⟩) (fun n => "blob:" ++ toString n) "k" rfl

/-- C2: when the final status reports done but carries no download link,
the run fails with the result missing error and no fetch is ever issued
(the list of fetched URLs is empty). -/
theorem poller_result_missing (initialOp : Operation) (polls : List Operation)
    (n : Nat) (finalOp : Operation)
    (hp : pollToDone initialOp polls = some (n, finalOp))
    (hnone : downloadLink finalOp = none)
    (fetch : String → FetchResponse) (createObjectURL : Nat → String)
    (apiKey : String) :
    generateVideoWithPrompt initialOp polls fetch createObjectURL apiKey =
      some ⟨n, [], Except.error VideoError.resultMissing⟩ := by
  unfold generateVideoWithPrompt
  rw [hp]
  dsimp only
  rw [hnone]

/-- Concrete instance of poller_result_missing: an immediately done handle
with an empty response. -/
theorem poller_result_missing_witness :
    generateVideoWithPrompt ⟨true, none⟩ []
      (fun _ => ⟨true, 200, 7⟩) (fun n => "blob:" ++ toString n) "k" =
      some ⟨0, [], Except.error VideoError.resultMissing⟩ :=
  poller_result_missing ⟨true, none⟩ [] 0 ⟨true, none⟩ rfl rfl
    (fun _ => ⟨true, 200, 7⟩) (fun n => "blob:" ++ toString n) "k"

/-- C3 counterexample: a provider error whose text is "API key not found"
does not contain the entity not found signature, so it is surfaced as the
generic wrapped message; yet feeding that displayed message to the video
view catch block resets the credential selected flag from true to false,
against the claim that only the dedicated credential error resets it. -/
theorem generic_error_resets_flag :
    strIncludes "API key not found" entityNotFoundSig = false ∧
    classifyVideoGenError "API key not found" =
      "Failed to generate video: " ++ "API key not found" ∧
    handleVideoErrorFlag (classifyVideoGenError "API key not found") true =
      false := by
  refine ⟨by decide, by decide, by decide⟩

/-- C3 amended: an error text containing the entity not found signature is
surfaced as the dedicated credential message and resets the credential
selected flag; any other error text is surfaced as the generic wrapped
message, and the flag is reset exactly when that displayed message itself
contains "API key not found" (so a provider message containing that
substring also resets it), otherwise it is kept. -/
theorem videoError_classification (m : String) (sel : Bool) :
    (strIncludes m entityNotFoundSig = true →
      classifyVideoGenError m = invalidCredentialMsg ∧
      handleVideoErrorFlag (classifyVideoGenError m) sel = false) ∧
    (strIncludes m entityNotFoundSig = false →
      classifyVideoGenError m = "Failed to generate video: " ++ m ∧
      handleVideoErrorFlag (classifyVideoGenError m) sel =
        (if strIncludes ("Failed to generate video: " ++ m) "API key not found"
          then false else sel)) := by
  constructor
  · intro h
    have hc : classifyVideoGenError m = invalidCredentialMsg := by
      simp [classifyVideoGenError, h]
    refine ⟨hc, ?_⟩
    rw [hc]
    have : strIncludes invalidCredentialMsg "API key not found" = true := by
      decide
    simp [handleVideoErrorFlag, this]
  · intro h
    have hc : classifyVideoGenError m = "Failed to generate video: " ++ m := by
      simp [classifyVideoGenError, h]
    exact ⟨hc, by rw [hc]; rfl⟩

/-- Concrete instance of videoError_classification: the signature itself as
the error text yields the credential message and a reset flag. -/
theorem videoError_classification_witness :
    classifyVideoGenError entityNotFoundSig = invalidCredentialMsg ∧
    handleVideoErrorFlag (classifyVideoGenError entityNotFoundSig) true =
      false :=
  (videoError_classification entityNotFoundSig true).1 (by decide)

/-- C4 counterexample: a parseable originalImage key next to a corrupt
editHistory key makes the load clear the whole store, but the original
image state update was already applied before the history parse threw, so
the resulting in memory state is not the empty one. -/
theorem loadSession_keeps_earlier_updates :
    (loadSession (fun _ => some ⟨none, "b", "image/png", "d"⟩) (fun _ => none)
        ⟨some "orig", none, some "corrupt"⟩) =
      (⟨some ⟨none, "b", "image/png", "d"⟩, none, []⟩, Store.empty, true) ∧
    (loadSession (fun _ => some ⟨none, "b", "image/png", "d"⟩) (fun _ => none)
        ⟨some "orig", none, some "corrupt"⟩).1 ≠ emptySession := by
  refine ⟨by decide, by decide⟩

/-- C4 amended: the load never rethrows; whenever a parse throws, the
entire store is cleared (otherwise it is left as it was), and the in memory
state keeps exactly the updates applied before the throw; in particular,
when the originalImage key itself fails to parse (the scenario of the
claim), the in memory state is exactly the empty one. -/
theorem loadSession_fail_safe (pi : String → Option ImageFile)
    (ph : String → Option (List String)) (st : Store) :
    ((loadSession pi ph st).2.2 = true →
      (loadSession pi ph st).2.1 = Store.empty) ∧
    ((loadSession pi ph st).2.2 = false →
      (loadSession pi ph st).2.1 = st) ∧
    (∀ raw, st.originalImage = some raw → pi raw = none →
      loadSession pi ph st = (emptySession, Store.empty, true)) := by
  refine ⟨?_, ?_, ?_⟩
  · unfold loadSession
    cases h : (readOriginal pi st emptySession).bind
        (fun s => (readEdited st s).bind (readHistory ph st)) with
    | ok s => simp
    | error s => simp
  · unfold loadSession
    cases h : (readOriginal pi st emptySession).bind
        (fun s => (readEdited st s).bind (readHistory ph st)) with
    | ok s => simp
    | error s => simp
  · intro raw hraw hpi
    unfold loadSession readOriginal
    rw [hraw]
    simp only [hpi]
    rfl

/-- Concrete instance of loadSession_fail_safe at a store whose
originalImage key does not parse. -/
theorem loadSession_fail_safe_witness :
    loadSession (fun _ => none) (fun _ => none) ⟨some "bad", none, none⟩ =
      (emptySession, Store.empty, true) :=
  (loadSession_fail_safe (fun _ => none) (fun _ => none)
    ⟨some "bad", none, none⟩).2.2 "bad" rfl rfl

/-- C5: reverting to any history entry leaves the history log untouched in
memory and in the store and only changes which entry is current, and a
subsequent successful edit appends its result at the tail of the full
existing log, in memory and in the store. -/
theorem revert_then_append (s : SessionState) (st : PersistStore)
    (x : String) (hx : x ∈ s.history)
    (gateway : String → String → String → String × String)
    (convert : String → String → String → String)
    (prompt outputFormat : String) (r : SubmitResult)
    (hr : handleSubmit gateway convert prompt outputFormat
      (handleRevertToHistory x (s, st)) = some r) :
    (handleRevertToHistory x (s, st)).1.history = s.history ∧
    (handleRevertToHistory x (s, st)).2.editHistory = st.editHistory ∧
    (handleRevertToHistory x (s, st)).1.editedImage = some x ∧
    r.state.history = s.history ++ [r.finalImageDataUrl] ∧
    r.store.editHistory = some (s.history ++ [r.finalImageDataUrl]) := by
  have h := hr
  unfold handleSubmit at h
  dsimp only [handleRevertToHistory] at h
  cases hso : s.originalImage with
  | none =>
    rw [hso] at h
    simp at h
  | some orig =>
    rw [hso] at h
    dsimp only at h
    by_cases hp : prompt = ""
    · simp [hp] at h
    · rw [if_neg hp, Option.some.injEq] at h
      exact ⟨rfl, rfl, rfl, by rw [← h], by rw [← h]⟩

/-- Concrete instance of revert_then_append. -/
theorem revert_then_append_witness :
    (⟨("a", "image/png", "p"), false, "data:image/png;base64,B",
      ⟨some ⟨none, "a", "image/png", "d"⟩, some "data:image/png;base64,B",
        ["h1", "h2", "data:image/png;base64,B"]⟩,
      ⟨some ⟨"a", "image/png", "d"⟩, some "data:image/png;base64,B",
        some ["h1", "h2", "data:image/png;base64,B"]⟩⟩ : SubmitResult).state.history =
      ["h1", "h2"] ++
        [(⟨("a", "image/png", "p"), false, "data:image/png;base64,B",
          ⟨some ⟨none, "a", "image/png", "d"⟩, some "data:image/png;base64,B",
            ["h1", "h2", "data:image/png;base64,B"]⟩,
          ⟨some ⟨"a", "image/png", "d"⟩, some "data:image/png;base64,B",
            some ["h1", "h2", "data:image/png;base64,B"]⟩⟩ :
          SubmitResult).finalImageDataUrl] :=
  (revert_then_append
    ⟨some ⟨none, "a", "image/png", "d"⟩, some "h2", ["h1", "h2"]⟩
    ⟨some ⟨"a", "image/png", "d"⟩, some "h2", some ["h1", "h2"]⟩
    "h1" (by decide) (fun _ _ _ => ("B", "image/png")) (fun b _ _ => b)
    "p" "image/png"
    ⟨("a", "image/png", "p"), false, "data:image/png;base64,B",
      ⟨some ⟨none, "a", "image/png", "d"⟩, some "data:image/png;base64,B",
        ["h1", "h2", "data:image/png;base64,B"]⟩,
      ⟨some ⟨"a", "image/png", "d"⟩, some "data:image/png;base64,B",
        some ["h1", "h2", "data:image/png;base64,B"]⟩⟩ (by decide)).2.2.2.1

/-- C6: each mutating handler writes or removes its persistence keys in
the same step as the in memory update: a new upload and an image removal
establish the store mirror outright, and a successful edit, a revert and a
clear preserve it. -/
theorem write_through (s : SessionState) (st : PersistStore)
    (hm : Mirrors s st) :
    (∀ img, Mirrors (handleImageChange img (s, st)).1
      (handleImageChange img (s, st)).2) ∧
    Mirrors (handleRemoveImage (s, st)).1 (handleRemoveImage (s, st)).2 ∧
    (∀ gateway convert prompt outputFormat r,
      handleSubmit gateway convert prompt outputFormat (s, st) = some r →
      Mirrors r.state r.store) ∧
    (∀ u, Mirrors (handleRevertToHistory u (s, st)).1
      (handleRevertToHistory u (s, st)).2) ∧
    Mirrors (handleClearHistory (s, st)).1 (handleClearHistory (s, st)).2 := by
  obtain ⟨h1, h2, h3⟩ := hm
  refine ⟨?_, ?_, ?_, ?_, ?_⟩
  · exact fun img => ⟨rfl, rfl, rfl⟩
  · exact ⟨rfl, rfl, rfl⟩
  · intro gateway convert prompt outputFormat r hr
    unfold handleSubmit at hr
    dsimp only at hr
    cases hso : s.originalImage with
    | none =>
      rw [hso] at hr
      simp at hr
    | some orig =>
      rw [hso] at hr
      dsimp only at hr
      by_cases hp : prompt = ""
      · simp [hp] at hr
      · rw [if_neg hp, Option.some.injEq] at hr
        rw [← hr]
        dsimp only
        exact ⟨by rw [h1, hso], rfl, rfl⟩
  · exact fun u => ⟨h1, rfl, h3⟩
  · exact ⟨h1, h2, rfl⟩

/-- Concrete instance of write_through: clearing from a mirrored pair. -/
theorem write_through_witness :
    Mirrors (handleClearHistory (emptySession, ⟨none, none, none⟩)).1
      (handleClearHistory (emptySession, ⟨none, none, none⟩)).2 :=
  (write_through emptySession ⟨none, none, none⟩ ⟨rfl, rfl, rfl⟩).2.2.2.2

/-- C7: when the mime type of the edit result equals the selected output
format, handleSubmit wraps the returned base64 payload into the data URL
unchanged and the conversion step does not run. -/
theorem normalize_same_encoding
    (gateway : String → String → String → String × String)
    (convert : String → String → String → String)
    (prompt outputFormat : String) (s : SessionState) (st : PersistStore)
    (orig : ImageFile) (hso : s.originalImage = some orig)
    (hp : prompt ≠ "")
    (hmime : (gateway orig.base64 orig.mimeType prompt).2 = outputFormat) :
    (handleSubmit gateway convert prompt outputFormat (s, st)).map
        (fun r => (r.converted, r.finalImageDataUrl)) =
      some (false, "data:" ++ outputFormat ++ ";base64," ++
        (gateway orig.base64 orig.mimeType prompt).1) := by
  unfold handleSubmit
  dsimp only
  rw [hso]
  dsimp only
  rw [if_neg hp]
  simp [hmime]

/-- Concrete instance of normalize_same_encoding. -/
theorem normalize_same_encoding_witness :
    (handleSubmit (fun _ _ _ => ("B", "image/png")) (fun b _ _ => b)
        "p" "image/png"
        (⟨some ⟨none, "a", "image/png", "d"⟩, none, []⟩,
         ⟨none, none, none⟩)).map
        (fun r => (r.converted, r.finalImageDataUrl)) =
      some (false, "data:" ++ "image/png" ++ ";base64," ++ "B") :=
  normalize_same_encoding (fun _ _ _ => ("B", "image/png")) (fun b _ _ => b)
    "p" "image/png" _ _ ⟨none, "a", "image/png", "d"⟩ rfl (by decide) rfl

/-- C8: for the image/jpeg target the canvas is filled with opaque white
before the source image is drawn, the quality handed to the encoder is
fixed at 9 / 10, and every pixel of the raster handed to the encoder is
fully opaque. -/
theorem jpeg_fill_white_no_transparency (src : Raster)
    (hsrc : ∀ x y, (src x y).a ≤ 255) :
    convertOps "image/jpeg" =
      [CanvasOp.fillRect opaqueWhite, CanvasOp.drawImage] ∧
    (toDataURLArgs "image/jpeg").2 = 9 / 10 ∧
    ∀ x y, (convertRaster src "image/jpeg" x y).a = 255 := by
  refine ⟨rfl, rfl, ?_⟩
  intro x y
  have h := hsrc x y
  simp only [convertRaster, runOps, convertOps, applyOp, overPixel, overAlpha,
    freshCanvas, opaqueWhite]
  simp only [if_pos rfl, List.append_eq, List.foldl]
  omega

/-- Concrete instance of jpeg_fill_white_no_transparency at a fully
transparent source image. -/
theorem jpeg_fill_white_no_transparency_witness :
    (convertRaster (fun _ _ => ⟨0, 0, 0, 0⟩) "image/jpeg" 0 0).a = 255 :=
  (jpeg_fill_white_no_transparency (fun _ _ => ⟨0, 0, 0, 0⟩)
    (fun _ _ => Nat.zero_le 255)).2.2 0 0

/-- C9: when the live handles are exactly the current videoUrl, a new
submission releases the previous handle before the fresh one is
materialized (no live handle remains in between), and success, failure and
teardown each preserve the invariant, which bounds the live handles by
one. -/
theorem objectURL_no_leak (st : UrlState) (hinv : UrlInvariant st) :
    (submitReleasePrevious st).live = [] ∧
    (∀ fresh, fresh ∉ st.live → UrlInvariant (submitSuccess fresh st)) ∧
    UrlInvariant (submitFailure st) ∧
    UrlInvariant (teardown st) ∧
    st.live.length ≤ 1 := by
  unfold UrlInvariant at hinv
  cases hv : st.videoUrl with
  | none =>
    rw [hv] at hinv
    refine ⟨?_, ?_, ?_, ?_, ?_⟩ <;>
      simp [submitReleasePrevious, submitSuccess, submitFailure, teardown,
        UrlInvariant, revokeURL, hv, hinv]
  | some u =>
    rw [hv] at hinv
    refine ⟨?_, ?_, ?_, ?_, ?_⟩ <;>
      simp [submitReleasePrevious, submitSuccess, submitFailure, teardown,
        UrlInvariant, revokeURL, hv, hinv]

/-- Concrete instance of objectURL_no_leak. -/
theorem objectURL_no_leak_witness :
    UrlInvariant (submitSuccess "blob:v" ⟨[], none⟩) :=
  (objectURL_no_leak ⟨[], none⟩ rfl).2.1 "blob:v" (by simp)

/-- C10: the gateway edit call receives the original image bytes and mime
type together with the prompt, never the current edited image, and a
preceding revert to any history entry changes none of these inputs. -/
theorem edit_uses_original
    (gateway : String → String → String → String × String)
    (convert : String → String → String → String)
    (prompt outputFormat : String) (s : SessionState) (st : PersistStore)
    (orig : ImageFile) (hso : s.originalImage = some orig)
    (hp : prompt ≠ "") :
    (handleSubmit gateway convert prompt outputFormat (s, st)).map
        SubmitResult.gatewayArgs =
      some (orig.base64, orig.mimeType, prompt) ∧
    ∀ x, (handleSubmit gateway convert prompt outputFormat
        (handleRevertToHistory x (s, st))).map SubmitResult.gatewayArgs =
      some (orig.base64, orig.mimeType, prompt) := by
  constructor
  · unfold handleSubmit
    dsimp only
    rw [hso]
    dsimp only
    rw [if_neg hp]
    rfl
  · intro x
    unfold handleSubmit
    dsimp only [handleRevertToHistory]
    rw [hso]
    dsimp only
    rw [if_neg hp]
    rfl

/-- Concrete instance of edit_uses_original after a revert. -/
theorem edit_uses_original_witness :
    (handleSubmit (fun _ _ _ => ("B", "image/png")) (fun b _ _ => b)
        "p" "image/png"
        (handleRevertToHistory "h1"
          (⟨some ⟨none, "a", "image/png", "d"⟩, some "h2", ["h1", "h2"]⟩,
           ⟨some ⟨"a", "image/png", "d"⟩, some "h2", some ["h1", "h2"]⟩))).map
      SubmitResult.gatewayArgs = some ("a", "image/png", "p") :=
  (edit_uses_original (fun _ _ _ => ("B", "image/png")) (fun b _ _ => b)
    "p" "image/png" _ _ ⟨none, "a", "image/png", "d"⟩ rfl (by decide)).2 "h1"

end VideoImgAI
